import Mathlib

/-!
Shallow embedding of the `billing-types` TypeScript repository, covering the
type-guard and validation layer (the file of `validateTotalOwnership`,
`canCreatePartnership`, `canDistributeProfitToPartners`, `getROIPerformance`,
the share guards and the month-format check), the pagination helper
`createPaginationResponse` from `src/utils/Pagination.ts`, and the relevant
data model from `src/models`.

JavaScript numbers are modelled as exact rationals (`ℚ`): every finite IEEE
double is a rational, and the repository performs only field arithmetic and
comparisons on them.  The `isNaN`/`isFinite` guards of the source are
vacuously true on `ℚ` and are therefore dropped where they occur.  `Date`
values are opaque records carrying an epoch timestamp.
-/

namespace BillingTypes

/-- `PartnerRole` string enum from `enums/PartnershipRole`. -/
inductive PartnerRole where
  | OWNER
  | PARTNER
  | INVESTOR
  | SILENT_PARTNER
  | MANAGING_PARTNER
deriving DecidableEq

/-- `DistributionStatus` string enum from `enums/PartnershipRole`. -/
inductive DistributionStatus where
  | CALCULATED
  | DISTRIBUTED
  | PAID
deriving DecidableEq

/-- `ShareStatus` string enum from `enums/PartnershipRole`. -/
inductive ShareStatus where
  | PENDING
  | PAID
deriving DecidableEq

/-- `ROIPerformance` string enum from `enums/FinancialEnums`. -/
inductive ROIPerformance where
  | EXCELLENT
  | GOOD
  | AVERAGE
  | POOR
  | NEGATIVE
deriving DecidableEq

/-- Opaque stand-in for the JavaScript `Date` object (epoch milliseconds). -/
structure JSDate where
  epochMillis : Int
deriving DecidableEq

/-- `Partnership` interface from `models/Partnership`. -/
structure Partnership where
  id : String
  companyId : String
  partnerId : String
  ownershipPercentage : ℚ
  role : PartnerRole
  investmentAmount : Option ℚ
  joinDate : JSDate
  isActive : Bool
  createdAt : JSDate
  updatedAt : JSDate
deriving DecidableEq

/-- `ProfitDistribution` interface from `models/Partnership`. -/
structure ProfitDistribution where
  id : String
  companyId : String
  month : String
  totalRevenue : ℚ
  totalExpenses : ℚ
  equipmentCosts : ℚ
  operationalCosts : ℚ
  netProfit : ℚ
  distributionDate : JSDate
  status : DistributionStatus
  createdAt : JSDate
  updatedAt : JSDate
deriving DecidableEq

/-- `PartnerShare` interface from `models/Partnership`.  `paidAt: Date | null`
becomes `Option JSDate`; the optional `paymentMethod`/`paymentReference`
strings become `Option String`. -/
structure PartnerShare where
  id : String
  distributionId : String
  partnerId : String
  shareAmount : ℚ
  percentage : ℚ
  status : ShareStatus
  paidAt : Option JSDate
  paymentMethod : Option String
  paymentReference : Option String
  createdAt : JSDate
  updatedAt : JSDate
deriving DecidableEq

/-- `ValidationResult` interface from `FinancialTypes`.  The
`correctedValues?: Record<string, any>` field only ever stores numeric fields
in this repository, so it is modelled as an optional association list from
field names to numbers. -/
structure ValidationResult where
  isValid : Bool
  errors : List String
  warnings : List String
  correctedValues : Option (List (String × ℚ))
deriving DecidableEq

/-- `PARTNERSHIP_CONFIG.OWNERSHIP_TOLERANCE` from
`constants/FinancialConstants.ts` (declared there; note that the validation
code below never reads it). -/
def OWNERSHIP_TOLERANCE : ℚ := 1 / 100

/-- Multiplicity of the prime `p` in `n` (first argument is structural
fuel, `n` itself suffices). -/
def multPow : Nat → Nat → Nat → Nat
  | 0, _, _ => 0
  | fuel + 1, p, n =>
    if 2 ≤ p ∧ n % p = 0 ∧ n ≠ 0 then multPow fuel p (n / p) + 1 else 0

/-- Strips trailing decimal zeros from a positive natural, returning the
stripped value and the number of zeros removed (first argument is
structural fuel, the number itself suffices). -/
def stripZeros : Nat → Nat → Nat × Nat
  | 0, s => (s, 0)
  | fuel + 1, s =>
    if s % 10 = 0 ∧ s ≠ 0 then
      let p := stripZeros fuel (s / 10)
      (p.1, p.2 + 1)
    else (s, 0)

/-- The digit-layout step of ECMAScript `Number::toString` (radix 10) for a
positive value `s · 10^(n-k)`, where `s` is the significand with no
trailing zero and `k` its digit count: positional with trailing zeros for
`k ≤ n ≤ 21`, positional with an interior or leading decimal point for
`-6 < n ≤ 21`, exponential `d.ddd e±(n-1)` otherwise. -/
def jsRenderDigits (s : Nat) (n : Int) : String :=
  let ds := (toString s).toList
  let k : Int := ds.length
  if k ≤ n ∧ n ≤ 21 then
    String.mk ds ++ String.mk (List.replicate (n - k).toNat '0')
  else if 0 < n ∧ n ≤ 21 then
    String.mk (ds.take n.toNat) ++ "." ++ String.mk (ds.drop n.toNat)
  else if -6 < n ∧ n ≤ 0 then
    "0." ++ String.mk (List.replicate (-n).toNat '0') ++ String.mk ds
  else
    let mantissa :=
      if ds.length = 1 then String.mk ds
      else String.mk (ds.take 1) ++ "." ++ String.mk (ds.drop 1)
    mantissa ++ "e" ++ (if 0 ≤ n - 1 then "+" else "-") ++ toString (n - 1).natAbs

/-- ECMAScript `Number::toString` (the default number-to-string conversion
used by template interpolation), idealised over exact rationals: `"0"` for
zero, a sign for negative values, and for a positive value `x` the digits
`s` and exponent `n` with `x = s · 10^(n-k)` laid out by `jsRenderDigits`
(so exponential notation for nonzero `|x| < 10^-6` and `|x| ≥ 10^21`,
positional otherwise).  Every finite double is `m / 2^e`, so its
denominator is a power of two and the significand/exponent decomposition
below is exact; the digits used are the exact decimal digits of the value
(for a double whose shortest round-trip decimal is shorter than its exact
expansion, JavaScript prints the shortest form — a discrepancy inherent to
idealising doubles as exact rationals; on the short decimal values this
repository manipulates the two coincide).  The final branch (denominator
divisible by a prime other than 2 and 5) is unreachable for
double-representable values. -/
def numToString (q : ℚ) : String :=
  if q = 0 then "0"
  else
    let sign := if q < 0 then "-" else ""
    let numAbs := q.num.natAbs
    let den := q.den
    let a := multPow den 2 den
    let b := multPow den 5 den
    if den = 2 ^ a * 5 ^ b then
      let t := max a b
      let s0 := numAbs * 2 ^ (t - a) * 5 ^ (t - b)
      let p := stripZeros s0 s0
      let k : Int := (toString p.1).length
      sign ++ jsRenderDigits p.1 (k + (p.2 : Int) - (t : Int))
    else
      sign ++ toString numAbs ++ "/" ++ toString den

/-- ECMAScript `Number.prototype.toFixed(1)`: the sign is split off first
and the magnitude `x` is rounded to the integer `n` minimising
`|n / 10 - x|` with ties to the larger `n` — so ties round away from zero
and a negative value rounding to zero keeps its sign (`(-0.04).toFixed(1)`
is `"-0.0"`); magnitudes of at least `10^21` fall back to `Number::toString`. -/
def toFixed1 (q : ℚ) : String :=
  let sign := if q < 0 then "-" else ""
  let x := if q < 0 then -q else q
  if 10 ^ 21 ≤ x then sign ++ numToString x
  else
    let n : Int := ⌊x * 10 + 1 / 2⌋
    sign ++ toString (n.toNat / 10) ++ "." ++ toString (n.toNat % 10)

/-- `isActivePartnership` from the type-guard file. -/
def isActivePartnership (partnership : Partnership) : Bool :=
  partnership.isActive && decide (0 < partnership.ownershipPercentage)

/-- `canDistributeProfit` from the type-guard file. -/
def canDistributeProfit (distribution : ProfitDistribution) : Bool :=
  decide (distribution.status = DistributionStatus.CALCULATED) &&
    decide (0 < distribution.netProfit)

/-- `isPendingShare` from the type-guard file:
`share.status === ShareStatus.PENDING && share.paidAt === null`. -/
def isPendingShare (share : PartnerShare) : Bool :=
  decide (share.status = ShareStatus.PENDING) && decide (share.paidAt = none)

/-- `isPaidShare` from the type-guard file:
`share.status === ShareStatus.PAID && share.paidAt !== null`. -/
def isPaidShare (share : PartnerShare) : Bool :=
  decide (share.status = ShareStatus.PAID) && decide (share.paidAt ≠ none)

/-- `getROIPerformance` from the type-guard file. -/
def getROIPerformance (roi : ℚ) : ROIPerformance :=
  if 20 < roi then ROIPerformance.EXCELLENT
  else if 10 < roi then ROIPerformance.GOOD
  else if 5 < roi then ROIPerformance.AVERAGE
  else if 0 < roi then ROIPerformance.POOR
  else ROIPerformance.NEGATIVE

/-- `isValidMonthFormat` from the type-guard file: the test
`/^\d{4}-\d{2}$/.test(month)`, character by character. -/
def isValidMonthFormat (month : String) : Bool :=
  match month.toList with
  | [c1, c2, c3, c4, c5, c6, c7] =>
    c1.isDigit && c2.isDigit && c3.isDigit && c4.isDigit &&
      c5 == '-' && c6.isDigit && c7.isDigit
  | _ => false

/-- The `month` field check of `calculateProfitSchema` in
`validation/PartnershipValidation.ts`:
`z.string().regex(/^\d{4}-\d{2}$/, ...)` — the same regular expression,
embedded independently. -/
def calculateProfitSchemaMonthOk (month : String) : Bool :=
  match month.toList with
  | [c1, c2, c3, c4, c5, c6, c7] =>
    c1.isDigit && c2.isDigit && c3.isDigit && c4.isDigit &&
      c5 == '-' && c6.isDigit && c7.isDigit
  | _ => false

/-- `isValidFinancialAmount` from the type-guard file.  The
`!isNaN && isFinite` conjuncts are identically true on `ℚ`. -/
def isValidFinancialAmount (amount : ℚ) : Bool :=
  decide (0 ≤ amount)

/-- `isValidPositiveAmount` from the type-guard file. -/
def isValidPositiveAmount (amount : ℚ) : Bool :=
  decide (0 < amount)

/-- `isValidPercentage` from the type-guard file (the TypeScript default
`allowNegative = false` is passed explicitly here). -/
def isValidPercentage (percentage : ℚ) (allowNegative : Bool) : Bool :=
  if isValidFinancialAmount percentage = false then false
  else if allowNegative then
    decide (-100 ≤ percentage) && decide (percentage ≤ 100)
  else
    decide (0 ≤ percentage) && decide (percentage ≤ 100)

/-- The shared two lines of `validateTotalOwnership` and
`canCreatePartnership`:
`partnerships.filter(p => p.isActive).reduce((sum, p) => sum + p.ownershipPercentage, 0)`. -/
def activeOwnershipTotal (partnerships : List Partnership) : ℚ :=
  (partnerships.filter fun p => p.isActive).foldl
    (fun sum p => sum + p.ownershipPercentage) 0

/-- `validateTotalOwnership` from the type-guard file. -/
def validateTotalOwnership (partnerships : List Partnership) : ValidationResult :=
  let total := activeOwnershipTotal partnerships
  if total = 100 then
    ⟨true, [], [], none⟩
  else if total < 100 then
    let missing := 100 - total
    ⟨false,
      ["Ownership percentages sum to " ++ toFixed1 total ++ "%. Missing " ++
        toFixed1 missing ++ "%."],
      if missing < 5 then
        ["Small ownership gap detected. Consider adjusting existing partnerships."]
      else [],
      some [("totalOwnership", total), ("missingPercentage", missing)]⟩
  else
    let excess := total - 100
    ⟨false,
      ["Ownership percentages sum to " ++ toFixed1 total ++ "%. Exceeds 100% by " ++
        toFixed1 excess ++ "%."],
      [],
      some [("totalOwnership", total), ("excessPercentage", excess)]⟩

/-- `canCreatePartnership` from the type-guard file. -/
def canCreatePartnership (existingPartnerships : List Partnership)
    (newOwnershipPercentage : ℚ) : ValidationResult :=
  let currentTotal := activeOwnershipTotal existingPartnerships
  let newTotal := currentTotal + newOwnershipPercentage
  if 100 < newTotal then
    ⟨false,
      ["Adding " ++ numToString newOwnershipPercentage ++
        "% would exceed 100% ownership (current: " ++ numToString currentTotal ++ "%)"],
      [], none⟩
  else
    ⟨true, [],
      if 95 < newTotal then
        ["Total ownership will be very close to 100%. Consider leaving room for future partners."]
      else [],
      none⟩

/-- `canDistributeProfitToPartners` from the type-guard file.  The source
pushes onto a mutable `errors` array in program order; the four conditional
lists below are appended in that same order. -/
def canDistributeProfitToPartners (distribution : ProfitDistribution)
    (partnerships : List Partnership) : ValidationResult :=
  let statusErrors :=
    if distribution.status ≠ DistributionStatus.CALCULATED then
      ["Distribution must be in CALCULATED status to distribute profits"]
    else []
  let profitErrors :=
    if distribution.netProfit ≤ 0 then
      ["Cannot distribute negative or zero profit"]
    else []
  let activePartnerships := partnerships.filter fun p => p.isActive
  let activeErrors :=
    if activePartnerships.length = 0 then
      ["No active partnerships found for profit distribution"]
    else []
  let ownershipValidation := validateTotalOwnership partnerships
  let ownershipErrors :=
    if ownershipValidation.isValid = false then ownershipValidation.errors else []
  let warnings :=
    if distribution.netProfit < 100 then
      ["Profit amount is very small. Consider accumulating profits before distribution."]
    else []
  let errors := statusErrors ++ profitErrors ++ activeErrors ++ ownershipErrors
  ⟨decide (errors.length = 0), errors, warnings, none⟩

/-- `PaginationResponse<T>` interface from `src/utils/Pagination.ts` (the
pagination fields are JavaScript numbers). -/
structure PaginationResponse (α : Type) where
  data : List α
  total : ℚ
  page : ℚ
  limit : ℚ
  totalPages : ℚ
  hasNextPage : Bool
  hasPreviousPage : Bool
deriving DecidableEq

/-- `createPaginationResponse` from `src/utils/Pagination.ts`.
`Math.ceil(total / limit)` is the exact ceiling on `ℚ`. -/
def createPaginationResponse {α : Type} (data : List α) (total page limit : ℚ) :
    PaginationResponse α :=
  let totalPages : ℚ := (⌈total / limit⌉ : Int)
  ⟨data, total, page, limit, totalPages,
    decide (page < totalPages), decide (1 < page)⟩

/-- Lookup of a numeric field in a `correctedValues` record, as callers of
`validateTotalOwnership` read `result.correctedValues.missingPercentage`. -/
def lookupCorrected (result : ValidationResult) (key : String) : Option ℚ :=
  result.correctedValues.bind fun l => l.lookup key

/-- The language of the regular expression `^\d{4}-\d{2}$`, stated from the
spec's words: four decimal digits, a hyphen, two decimal digits, and nothing
else. -/
def monthRegexLang (m : String) : Prop :=
  ∃ d1 d2 d3 d4 d5 d6 : Char,
    m.toList = [d1, d2, d3, d4, '-', d5, d6] ∧
    d1.isDigit = true ∧ d2.isDigit = true ∧ d3.isDigit = true ∧
    d4.isDigit = true ∧ d5.isDigit = true ∧ d6.isDigit = true

/-- A concrete active partnership holding `pct`% used in witnesses and
counterexamples. -/
def samplePartnership (pct : ℚ) : Partnership :=
  ⟨"partnership-1", "company-1", "partner-1", pct, PartnerRole.PARTNER,
    none, ⟨0⟩, true, ⟨0⟩, ⟨0⟩⟩

/-- A concrete CALCULATED distribution with positive net profit, used in
witnesses. -/
def sampleDistribution : ProfitDistribution :=
  ⟨"dist-1", "company-1", "2024-01", 1000, 500, 100, 100, 500, ⟨0⟩,
    DistributionStatus.CALCULATED, ⟨0⟩, ⟨0⟩⟩

/-- A concrete paid share used in witnesses. -/
def sampleShare : PartnerShare :=
  ⟨"share-1", "dist-1", "partner-1", 250, 50, ShareStatus.PAID, some ⟨0⟩,
    none, none, ⟨0⟩, ⟨0⟩⟩

section Lemmas

lemma validateTotalOwnership_of_eq (ps : List Partnership)
    (h : activeOwnershipTotal ps = 100) :
    validateTotalOwnership ps = ⟨true, [], [], none⟩ := by
  simp [validateTotalOwnership, h]

lemma validateTotalOwnership_of_lt (ps : List Partnership)
    (h : activeOwnershipTotal ps < 100) :
    validateTotalOwnership ps =
      ⟨false,
        ["Ownership percentages sum to " ++ toFixed1 (activeOwnershipTotal ps) ++
          "%. Missing " ++ toFixed1 (100 - activeOwnershipTotal ps) ++ "%."],
        if 100 - activeOwnershipTotal ps < 5 then
          ["Small ownership gap detected. Consider adjusting existing partnerships."]
        else [],
        some [("totalOwnership", activeOwnershipTotal ps),
          ("missingPercentage", 100 - activeOwnershipTotal ps)]⟩ := by
  have hne : activeOwnershipTotal ps ≠ 100 := ne_of_lt h
  simp [validateTotalOwnership, hne, h]

lemma validateTotalOwnership_of_gt (ps : List Partnership)
    (h : 100 < activeOwnershipTotal ps) :
    validateTotalOwnership ps =
      ⟨false,
        ["Ownership percentages sum to " ++ toFixed1 (activeOwnershipTotal ps) ++
          "%. Exceeds 100% by " ++ toFixed1 (activeOwnershipTotal ps - 100) ++ "%."],
        [],
        some [("totalOwnership", activeOwnershipTotal ps),
          ("excessPercentage", activeOwnershipTotal ps - 100)]⟩ := by
  have hne : activeOwnershipTotal ps ≠ 100 := ne_of_gt h
  have hnl : ¬ activeOwnershipTotal ps < 100 := not_lt_of_gt h
  simp [validateTotalOwnership, hne, hnl]

lemma validateTotalOwnership_isValid_iff (ps : List Partnership) :
    (validateTotalOwnership ps).isValid = true ↔ activeOwnershipTotal ps = 100 := by
  rcases lt_trichotomy (activeOwnershipTotal ps) 100 with h | h | h
  · rw [validateTotalOwnership_of_lt ps h]
    simp [ne_of_lt h]
  · rw [validateTotalOwnership_of_eq ps h]
    simp [h]
  · rw [validateTotalOwnership_of_gt ps h]
    simp [ne_of_gt h]

lemma validateTotalOwnership_errors_ne_nil (ps : List Partnership)
    (h : (validateTotalOwnership ps).isValid = false) :
    (validateTotalOwnership ps).errors ≠ [] := by
  rcases lt_trichotomy (activeOwnershipTotal ps) 100 with ht | ht | ht
  · rw [validateTotalOwnership_of_lt ps ht]
    simp
  · rw [validateTotalOwnership_of_eq ps ht] at h
    simp at h
  · rw [validateTotalOwnership_of_gt ps ht]
    simp

lemma activeOwnershipTotal_single (pct : ℚ) :
    activeOwnershipTotal [samplePartnership pct] = pct := by
  simp [activeOwnershipTotal, samplePartnership]

end Lemmas

/-- C3: `getROIPerformance` realises the half-open partition of the line:
`EXCELLENT` on `(20, ∞)`, `GOOD` on `(10, 20]`, `AVERAGE` on `(5, 10]`,
`POOR` on `(0, 5]`, `NEGATIVE` on `(-∞, 0]`; the characterisations are
if-and-only-if, so the five ranges are exhaustive and mutually disjoint at
the boundaries 0, 5, 10, 20. -/
theorem getROIPerformance_partition (roi : ℚ) :
    (getROIPerformance roi = ROIPerformance.EXCELLENT ↔ 20 < roi) ∧
    (getROIPerformance roi = ROIPerformance.GOOD ↔ 10 < roi ∧ roi ≤ 20) ∧
    (getROIPerformance roi = ROIPerformance.AVERAGE ↔ 5 < roi ∧ roi ≤ 10) ∧
    (getROIPerformance roi = ROIPerformance.POOR ↔ 0 < roi ∧ roi ≤ 5) ∧
    (getROIPerformance roi = ROIPerformance.NEGATIVE ↔ roi ≤ 0) := by
  unfold getROIPerformance
  split_ifs with h1 h2 h3 h4 <;>
    refine ⟨?_, ?_, ?_, ?_, ?_⟩ <;>
    simp_all <;>
    intros <;> linarith

/-- C7: `isPaidShare` decides `status = PAID ∧ paidAt ≠ null` and
`isPendingShare` decides `status = PENDING ∧ paidAt = null`; on shares
satisfying the model invariant `paidAt ≠ null ↔ status = PAID`, they decide
`status = PAID` and `status = PENDING` respectively. -/
theorem isPaidShare_isPendingShare_spec (share : PartnerShare) :
    (isPaidShare share = true ↔
      share.status = ShareStatus.PAID ∧ share.paidAt ≠ none) ∧
    (isPendingShare share = true ↔
      share.status = ShareStatus.PENDING ∧ share.paidAt = none) ∧
    ((share.paidAt ≠ none ↔ share.status = ShareStatus.PAID) →
      (isPaidShare share = true ↔ share.status = ShareStatus.PAID) ∧
      (isPendingShare share = true ↔ share.status = ShareStatus.PENDING)) := by
  refine ⟨by simp [isPaidShare], by simp [isPendingShare], ?_⟩
  intro hinv
  cases hs : share.status with
  | PENDING =>
    rw [hs] at hinv
    simp at hinv
    simp [isPaidShare, isPendingShare, hs, hinv]
  | PAID =>
    rw [hs] at hinv
    simp at hinv
    simp [isPaidShare, isPendingShare, hs, hinv]

/-- Witness for C7 at a concrete paid share satisfying the invariant. -/
theorem isPaidShare_isPendingShare_spec_witness :
    (sampleShare.paidAt ≠ none ↔ sampleShare.status = ShareStatus.PAID) ∧
    (isPaidShare sampleShare = true ↔ sampleShare.status = ShareStatus.PAID) ∧
    (isPendingShare sampleShare = true ↔
      sampleShare.status = ShareStatus.PENDING) :=
  ⟨by simp [sampleShare],
    (isPaidShare_isPendingShare_spec sampleShare).2.2 (by simp [sampleShare])⟩

/-- C8: the `month` check of `calculateProfitSchema` agrees with
`isValidMonthFormat`, and both accept a string exactly when it lies in the
language of `^\d{4}-\d{2}$`; every other string is rejected. -/
theorem month_format_regex_iff (m : String) :
    calculateProfitSchemaMonthOk m = isValidMonthFormat m ∧
    (isValidMonthFormat m = true ↔ monthRegexLang m) := by
  refine ⟨rfl, ?_⟩
  unfold isValidMonthFormat monthRegexLang
  constructor
  · intro h
    split at h
    · rename_i c1 c2 c3 c4 c5 c6 c7 heq
      simp only [Bool.and_eq_true, beq_iff_eq] at h
      exact ⟨c1, c2, c3, c4, c6, c7, by rw [heq, h.1.1.2],
        h.1.1.1.1.1.1, h.1.1.1.1.1.2, h.1.1.1.1.2, h.1.1.1.2, h.1.2, h.2⟩
    · exact absurd h (by simp)
  · rintro ⟨d1, d2, d3, d4, d5, d6, hm, h1, h2, h3, h4, h5, h6⟩
    rw [hm]
    simp [h1, h2, h3, h4, h5, h6]

/-- C9: the `allowNegative` flag of `isValidPercentage` is unreachable dead
logic: the leading `isValidFinancialAmount` test already forces
`percentage ≥ 0`, so the flag never changes the outcome and all negative
inputs are rejected under both flag values. -/
theorem isValidPercentage_allowNegative_irrelevant (p : ℚ) :
    isValidPercentage p true = isValidPercentage p false ∧
    (p < 0 →
      isValidPercentage p true = false ∧ isValidPercentage p false = false) := by
  unfold isValidPercentage isValidFinancialAmount
  by_cases h : 0 ≤ p
  · have h100 : (-100 : ℚ) ≤ p := by linarith
    simp [h, h100]
  · simp [h]

/-- Witness for C9 at `p = -5`. -/
theorem isValidPercentage_allowNegative_irrelevant_witness :
    (-5 : ℚ) < 0 ∧
    isValidPercentage (-5) true = false ∧ isValidPercentage (-5) false = false :=
  ⟨by norm_num,
    (isValidPercentage_allowNegative_irrelevant (-5)).2 (by norm_num)⟩

/-- C10: `createPaginationResponse` returns `totalPages = ⌈total / limit⌉`,
`hasNextPage ↔ page < totalPages`, `hasPreviousPage ↔ page > 1`, and passes
`data`, `total`, `page` and `limit` through unchanged. -/
theorem createPaginationResponse_spec (α : Type) (data : List α)
    (total page limit : ℚ) (htotal : 0 ≤ total) (hlimit : 0 < limit)
    (hpage : 1 ≤ page) :
    (createPaginationResponse data total page limit).totalPages =
      ((⌈total / limit⌉ : Int) : ℚ) ∧
    ((createPaginationResponse data total page limit).hasNextPage = true ↔
      page < ((⌈total / limit⌉ : Int) : ℚ)) ∧
    ((createPaginationResponse data total page limit).hasPreviousPage = true ↔
      1 < page) ∧
    (createPaginationResponse data total page limit).data = data ∧
    (createPaginationResponse data total page limit).total = total ∧
    (createPaginationResponse data total page limit).page = page ∧
    (createPaginationResponse data total page limit).limit = limit := by
  simp [createPaginationResponse]

/-- Witness for C10: 10 records, 4 per page, on page 2 — 3 total pages,
with a next page and a previous page. -/
theorem createPaginationResponse_spec_witness :
    (0 : ℚ) ≤ 10 ∧ (0 : ℚ) < 4 ∧ (1 : ℚ) ≤ 2 ∧
    ((createPaginationResponse ([10, 20, 30] : List ℕ) 10 2 4).totalPages =
      ((⌈(10 : ℚ) / 4⌉ : Int) : ℚ) ∧
    ((createPaginationResponse ([10, 20, 30] : List ℕ) 10 2 4).hasNextPage = true ↔
      (2 : ℚ) < ((⌈(10 : ℚ) / 4⌉ : Int) : ℚ)) ∧
    ((createPaginationResponse ([10, 20, 30] : List ℕ) 10 2 4).hasPreviousPage = true ↔
      (1 : ℚ) < 2) ∧
    (createPaginationResponse ([10, 20, 30] : List ℕ) 10 2 4).data = [10, 20, 30] ∧
    (createPaginationResponse ([10, 20, 30] : List ℕ) 10 2 4).total = 10 ∧
    (createPaginationResponse ([10, 20, 30] : List ℕ) 10 2 4).page = 2 ∧
    (createPaginationResponse ([10, 20, 30] : List ℕ) 10 2 4).limit = 4) :=
  ⟨by norm_num, by norm_num, by norm_num,
    createPaginationResponse_spec ℕ [10, 20, 30] 10 2 4 (by norm_num)
      (by norm_num) (by norm_num)⟩

/-- C1 counterexample: a single active partnership holding 100.005% sums to
within `OWNERSHIP_TOLERANCE = 0.01` of 100, yet `validateTotalOwnership`
reports `isValid = false` — the function compares the total to 100 exactly
and never consults the tolerance constant. -/
theorem validateTotalOwnership_ignores_tolerance_cex :
    |activeOwnershipTotal [samplePartnership (100 + 1 / 200)] - 100| ≤
      OWNERSHIP_TOLERANCE ∧
    (validateTotalOwnership [samplePartnership (100 + 1 / 200)]).isValid = false := by
  have h := activeOwnershipTotal_single (100 + 1 / 200)
  constructor
  · rw [h, show (100 + 1 / 200 : ℚ) - 100 = 1 / 200 from by norm_num,
      abs_of_nonneg (by norm_num : (0 : ℚ) ≤ 1 / 200)]
    norm_num [OWNERSHIP_TOLERANCE]
  · rw [validateTotalOwnership_of_gt _ (by rw [h]; norm_num)]

/-- C1 amended: `validateTotalOwnership` reports `isValid = true` exactly
when the active ownership percentages sum to 100 exactly (no tolerance). -/
theorem validateTotalOwnership_isValid_iff_exact_100 (ps : List Partnership) :
    (validateTotalOwnership ps).isValid = true ↔ activeOwnershipTotal ps = 100 :=
  validateTotalOwnership_isValid_iff ps

/-- C5: at an active sum of 85 the validator fails with the error
`Ownership percentages sum to 85.0%. Missing 15.0%.` and
`correctedValues.missingPercentage = 15`; in general any sum other than 100
yields `isValid = false` with a single error stating the gap formatted to
one decimal (missing below 100, excess above), and `correctedValues`
carrying the exact numeric gap. -/
theorem validateTotalOwnership_reports_signed_gap :
    ((validateTotalOwnership [samplePartnership 85]).isValid = false ∧
      (validateTotalOwnership [samplePartnership 85]).errors =
        ["Ownership percentages sum to 85.0%. Missing 15.0%."] ∧
      lookupCorrected (validateTotalOwnership [samplePartnership 85])
        "missingPercentage" = some 15) ∧
    ∀ ps : List Partnership,
      (activeOwnershipTotal ps ≠ 100 →
        (validateTotalOwnership ps).isValid = false) ∧
      (activeOwnershipTotal ps < 100 →
        (validateTotalOwnership ps).errors =
          ["Ownership percentages sum to " ++ toFixed1 (activeOwnershipTotal ps) ++
            "%. Missing " ++ toFixed1 (100 - activeOwnershipTotal ps) ++ "%."] ∧
        lookupCorrected (validateTotalOwnership ps) "missingPercentage" =
          some (100 - activeOwnershipTotal ps)) ∧
      (100 < activeOwnershipTotal ps →
        (validateTotalOwnership ps).errors =
          ["Ownership percentages sum to " ++ toFixed1 (activeOwnershipTotal ps) ++
            "%. Exceeds 100% by " ++ toFixed1 (activeOwnershipTotal ps - 100) ++ "%."] ∧
        lookupCorrected (validateTotalOwnership ps) "excessPercentage" =
          some (activeOwnershipTotal ps - 100)) := by
  constructor
  · have h := activeOwnershipTotal_single 85
    rw [validateTotalOwnership_of_lt _ (by rw [h]; norm_num), h]
    refine ⟨rfl, ?_, ?_⟩
    · norm_num [toFixed1]
      rfl
    · norm_num [lookupCorrected, List.lookup]
      rfl
  · intro ps
    refine ⟨?_, ?_, ?_⟩
    · intro hne
      rcases lt_or_gt_of_ne hne with h | h
      · rw [validateTotalOwnership_of_lt ps h]
      · rw [validateTotalOwnership_of_gt ps h]
    · intro h
      rw [validateTotalOwnership_of_lt ps h]
      exact ⟨rfl, by simp [lookupCorrected, List.lookup]⟩
    · intro h
      rw [validateTotalOwnership_of_gt ps h]
      exact ⟨rfl, by simp [lookupCorrected, List.lookup]⟩

/-- Witness for C5 at an active sum of 40. -/
theorem validateTotalOwnership_reports_signed_gap_witness :
    activeOwnershipTotal [samplePartnership 40] < 100 ∧
    ((validateTotalOwnership [samplePartnership 40]).errors =
      ["Ownership percentages sum to " ++
        toFixed1 (activeOwnershipTotal [samplePartnership 40]) ++
        "%. Missing " ++
        toFixed1 (100 - activeOwnershipTotal [samplePartnership 40]) ++ "%."] ∧
    lookupCorrected (validateTotalOwnership [samplePartnership 40])
      "missingPercentage" =
      some (100 - activeOwnershipTotal [samplePartnership 40])) :=
  ⟨by rw [activeOwnershipTotal_single 40]; norm_num,
    (validateTotalOwnership_reports_signed_gap.2 [samplePartnership 40]).2.1
      (by rw [activeOwnershipTotal_single 40]; norm_num)⟩

/-- C6 counterexample: at an active sum of 102 the gap magnitude is 2 < 5,
yet the excess branch of `validateTotalOwnership` emits no warning — the
small-gap warning exists only on the missing side. -/
theorem validateTotalOwnership_excess_small_gap_no_warning_cex :
    activeOwnershipTotal [samplePartnership 102] = 102 ∧
    |(102 : ℚ) - 100| < 5 ∧
    (validateTotalOwnership [samplePartnership 102]).isValid = false ∧
    (validateTotalOwnership [samplePartnership 102]).warnings = [] := by
  have h := activeOwnershipTotal_single 102
  have habs : |(102 : ℚ) - 100| < 5 := by
    rw [show (102 : ℚ) - 100 = 2 from by norm_num,
      abs_of_nonneg (by norm_num : (0 : ℚ) ≤ 2)]
    norm_num
  refine ⟨h, habs, ?_, ?_⟩ <;>
    rw [validateTotalOwnership_of_gt _ (by rw [h]; norm_num)]

/-- C6 amended: the adjustment warning accompanies only sums below 100 with
a missing gap under 5; sums above 100 (and exactly 100) never carry it. -/
theorem validateTotalOwnership_small_gap_warning_only_when_missing
    (ps : List Partnership) :
    (activeOwnershipTotal ps < 100 →
      ((validateTotalOwnership ps).warnings =
          ["Small ownership gap detected. Consider adjusting existing partnerships."] ↔
        100 - activeOwnershipTotal ps < 5)) ∧
    (100 < activeOwnershipTotal ps → (validateTotalOwnership ps).warnings = []) ∧
    (activeOwnershipTotal ps = 100 → (validateTotalOwnership ps).warnings = []) := by
  refine ⟨?_, ?_, ?_⟩
  · intro h
    rw [validateTotalOwnership_of_lt ps h]
    by_cases h5 : 100 - activeOwnershipTotal ps < 5 <;> simp [h5]
  · intro h
    rw [validateTotalOwnership_of_gt ps h]
  · intro h
    rw [validateTotalOwnership_of_eq ps h]

/-- Witness for the amended C6 at an active sum of 99 (missing 1 < 5). -/
theorem validateTotalOwnership_small_gap_warning_only_when_missing_witness :
    activeOwnershipTotal [samplePartnership 99] < 100 ∧
    ((validateTotalOwnership [samplePartnership 99]).warnings =
        ["Small ownership gap detected. Consider adjusting existing partnerships."] ↔
      100 - activeOwnershipTotal [samplePartnership 99] < 5) :=
  ⟨by rw [activeOwnershipTotal_single 99]; norm_num,
    (validateTotalOwnership_small_gap_warning_only_when_missing
      [samplePartnership 99]).1
      (by rw [activeOwnershipTotal_single 99]; norm_num)⟩

/-- C4: `canCreatePartnership` fails exactly when the active sum plus the
candidate percentage exceeds 100, with the message
`Adding {p}% would exceed 100% ownership (current: {currentTotal}%)`; when
it succeeds with a new total above 95 it carries a warning and no error. -/
theorem canCreatePartnership_spec (ps : List Partnership) (p : ℚ) :
    ((canCreatePartnership ps p).isValid = false ↔
      100 < activeOwnershipTotal ps + p) ∧
    (100 < activeOwnershipTotal ps + p →
      (canCreatePartnership ps p).errors =
        ["Adding " ++ numToString p ++ "% would exceed 100% ownership (current: " ++
          numToString (activeOwnershipTotal ps) ++ "%)"]) ∧
    ((canCreatePartnership ps p).isValid = true →
      95 < activeOwnershipTotal ps + p →
      (canCreatePartnership ps p).warnings =
        ["Total ownership will be very close to 100%. Consider leaving room for future partners."] ∧
      (canCreatePartnership ps p).errors = []) := by
  unfold canCreatePartnership
  by_cases h : 100 < activeOwnershipTotal ps + p
  · simp [h]
  · simp [h]

/-- Witness for C4: adding 30% to a company at 85% fails with the
documented message. -/
theorem canCreatePartnership_spec_witness :
    100 < activeOwnershipTotal [samplePartnership 85] + 30 ∧
    (canCreatePartnership [samplePartnership 85] 30).errors =
      ["Adding 30% would exceed 100% ownership (current: 85%)"] := by
  have h := activeOwnershipTotal_single 85
  have hgt : 100 < activeOwnershipTotal [samplePartnership 85] + 30 := by
    rw [h]; norm_num
  refine ⟨hgt, ?_⟩
  have he := (canCreatePartnership_spec [samplePartnership 85] 30).2.1 hgt
  rw [he, h]
  norm_num [numToString]
  rfl

/-- C2: `canDistributeProfitToPartners` succeeds exactly when the
distribution is CALCULATED, its net profit is positive, some partnership in
the list is active, and the ownership total validates; when the ownership
check fails its errors are carried into the returned error list. -/
theorem canDistributeProfitToPartners_spec (distribution : ProfitDistribution)
    (ps : List Partnership) :
    ((canDistributeProfitToPartners distribution ps).isValid = true ↔
      distribution.status = DistributionStatus.CALCULATED ∧
      0 < distribution.netProfit ∧
      (∃ p ∈ ps, p.isActive = true) ∧
      (validateTotalOwnership ps).isValid = true) ∧
    ((validateTotalOwnership ps).isValid = false →
      ∀ e ∈ (validateTotalOwnership ps).errors,
        e ∈ (canDistributeProfitToPartners distribution ps).errors) := by
  constructor
  · unfold canDistributeProfitToPartners
    simp only [decide_eq_true_eq, List.length_eq_zero, List.append_eq_nil]
    constructor
    · rintro ⟨⟨⟨hs, hp⟩, ha⟩, ho⟩
      refine ⟨?_, ?_, ?_, ?_⟩
      · by_contra hc
        simp [hc] at hs
      · by_contra hc
        rw [not_lt] at hc
        simp [hc] at hp
      · by_contra hc
        have hnil : (ps.filter fun p => p.isActive) = [] := by
          rw [List.filter_eq_nil_iff]
          intro q hq hact
          exact hc ⟨q, hq, by simpa using hact⟩
        simp [hnil] at ha
      · by_contra hc
        have hfalse : (validateTotalOwnership ps).isValid = false := by
          simpa using hc
        have hnil : (validateTotalOwnership ps).errors = [] := by
          simpa [hfalse] using ho
        exact validateTotalOwnership_errors_ne_nil ps hfalse hnil
    · rintro ⟨hs, hp, ha, ho⟩
      have h1 : ¬distribution.status ≠ DistributionStatus.CALCULATED := by
        simp [hs]
      have h2 : ¬distribution.netProfit ≤ 0 := not_le.mpr hp
      have h3 : ¬(ps.filter fun p => p.isActive) = [] := by
        rw [List.filter_eq_nil_iff]
        push_neg
        obtain ⟨q, hq, hact⟩ := ha
        exact ⟨q, hq, by simp [hact]⟩
      simp [h1, h2, h3, ha, ho]
  · intro hf e he
    simp [canDistributeProfitToPartners, hf, List.mem_append, he]

/-- Witness for C2: with an ownership sum of 85 the ownership error surfaces
in the distribution-precondition errors. -/
theorem canDistributeProfitToPartners_spec_witness :
    (validateTotalOwnership [samplePartnership 85]).isValid = false ∧
    "Ownership percentages sum to 85.0%. Missing 15.0%." ∈
      (canDistributeProfitToPartners sampleDistribution
        [samplePartnership 85]).errors := by
  have h := activeOwnershipTotal_single 85
  have hlt : activeOwnershipTotal [samplePartnership 85] < 100 := by
    rw [h]; norm_num
  have hres := validateTotalOwnership_of_lt _ hlt
  have hinv : (validateTotalOwnership [samplePartnership 85]).isValid = false := by
    rw [hres]
  have herr : (validateTotalOwnership [samplePartnership 85]).errors =
      ["Ownership percentages sum to 85.0%. Missing 15.0%."] := by
    rw [hres, h]
    norm_num [toFixed1]
    rfl
  exact ⟨hinv,
    (canDistributeProfitToPartners_spec sampleDistribution
      [samplePartnership 85]).2 hinv _ (by rw [herr]; simp)⟩

end BillingTypes
